import Mathlib

/-!
Shallow embedding of the apireception API gateway (Rust) for checking its
natural-language specification.  Each definition carries a note saying which
source function it embeds.  Machine integers (`u32`, `u64`, `usize`) are
modelled as `Nat`: none of the embedded code paths can overflow on the inputs
considered, and the source performs no wrapping arithmetic on them.
-/

/-- Endpoint record from `src/config.rs` (`struct Endpoint { addr, weight }`).
`weight` is a `u32` in the source. -/
structure Endpoint where
  addr : String
  weight : Nat
deriving DecidableEq, Repr

/-- Two-state health value from `src/health.rs` (`enum Healthiness { Up, Down }`).
The revision of the enum referenced by `src/upstream.rs` spells the up-state
`Healthly`; it is the same first constructor and is modelled by `Up`. -/
inductive Healthiness where
  | Up : Healthiness
  | Down : Healthiness
deriving DecidableEq, Repr

/-- Health-check configuration from `src/health.rs` (`struct HealthConfig`). -/
structure HealthConfig where
  timeout : Nat
  interval : Nat
  path : String
  status_regex : String
  rise : Nat
  fall : Nat
  default_down : Bool
deriving DecidableEq, Repr

/-- Probe-outcome ring from `src/health.rs` (`struct StatusRing`).  The
`VecDeque` is modelled as a list whose head is the oldest entry and whose last
element is the most recently pushed entry (`push_back` appends, `pop_front`
drops the head, `ring.iter().rev().next()` reads the last element). -/
structure StatusRing where
  status : Healthiness
  raise : Nat
  fall : Nat
  capacity : Nat
  ring : List Healthiness
deriving DecidableEq, Repr

/-- `StatusRing::new` (src/health.rs lines 126-141): the aggregated state is
initialised from `default_down`, the ring is empty, and the capacity is
`rise + fall`. -/
def StatusRing.new (cfg : HealthConfig) : StatusRing :=
  { status := if cfg.default_down then Healthiness.Down else Healthiness.Up
    raise := cfg.rise
    fall := cfg.fall
    capacity := cfg.rise + cfg.fall
    ring := [] }

/-- `StatusRing::check_status` (src/health.rs lines 169-176), embedded exactly
as written: the loop body runs `threshold` times but every iteration reads
`self.ring.iter().rev().next()`, i.e. the newest ring entry, afresh; the loop
index is never used to move deeper into the ring. -/
def StatusRing.check_status (s : StatusRing) (expect : Healthiness) : Nat → Bool
  | 0 => true
  | Nat.succ n =>
      if s.ring.getLast? = some expect then s.check_status expect n else false

/-- `StatusRing::append` (src/health.rs lines 147-167): push the outcome,
drop the oldest entry when `len >= capacity`, then update the aggregated
state via `check_status` with the `fall` (resp. `raise`) threshold. -/
def StatusRing.append (s : StatusRing) (status : Healthiness) : StatusRing :=
  let ring1 := s.ring ++ [status]
  let ring2 := if s.capacity ≤ ring1.length then ring1.tail else ring1
  let s1 := { s with ring := ring2 }
  match status with
  | Healthiness.Down =>
      if s1.check_status Healthiness.Down s1.fall then { s1 with status := status } else s1
  | Healthiness.Up =>
      if s1.check_status Healthiness.Up s1.raise then { s1 with status := status } else s1

/-- Upstream configuration from `src/config.rs` (`struct UpstreamConfig`). -/
structure UpstreamConfig where
  id : String
  name : String
  desc : String
  endpoints : List Endpoint
  strategy : String
  is_https : Bool
  health_check : HealthConfig
deriving DecidableEq, Repr

/-- URI scheme, the part of `hyper::http::uri::Scheme` the gateway uses. -/
inductive Scheme where
  | Http : Scheme
  | Https : Scheme
deriving DecidableEq, Repr

/-- The three load-balancing strategies built in `Upstream::new`
(src/upstream.rs lines 37-44).  `LeastRequest` carries its in-flight
connection map (`RwLock<HashMap<String, usize>>`), modelled as an association
list in insertion order. -/
inductive Strategy where
  | Random : Strategy
  | WeightedRandom : Strategy
  | LeastRequest : List (String × Nat) → Strategy
deriving DecidableEq, Repr

/-- Live upstream from `src/upstream.rs` (`struct Upstream`).  Each endpoint
pairs the configured record with its shared healthiness cell
(`ArcSwap<Healthiness>`); the strategy lives inside the HTTP client
(`GatewayClient`), whose hyper connection pool is irrelevant here and is
dropped from the model. -/
structure Upstream where
  name : String
  scheme : Scheme
  strategy : Strategy
  endpoints : List (Endpoint × Healthiness)
  health_config : HealthConfig
deriving DecidableEq, Repr

/-- `Upstream::new` (src/upstream.rs lines 24-55): every healthiness cell is
initialised to the up-state (`Healthiness::Healthly`) unconditionally; the
strategy string is dispatched to one of the three strategies, any other
string is the `UnknownLBStrategy` config error. -/
def Upstream.new (cfg : UpstreamConfig) : Except String Upstream :=
  let endpoints := cfg.endpoints.map (fun ep => (ep, Healthiness.Up))
  let scheme := if cfg.is_https then Scheme.Https else Scheme.Http
  match cfg.strategy with
  | "random" =>
      Except.ok { name := cfg.name, scheme := scheme, strategy := Strategy.Random,
                  endpoints := endpoints, health_config := cfg.health_check }
  | "weighted" =>
      Except.ok { name := cfg.name, scheme := scheme, strategy := Strategy.WeightedRandom,
                  endpoints := endpoints, health_config := cfg.health_check }
  | "least_request" =>
      Except.ok { name := cfg.name, scheme := scheme, strategy := Strategy.LeastRequest [],
                  endpoints := endpoints, health_config := cfg.health_check }
  | s => Except.error ("unknown strategy<" ++ s ++ ">")

/-- `Upstream::heathy_endpoints` (src/upstream.rs lines 57-65, the source
spells it without the `l`): endpoints whose weight is non-zero and whose
healthiness cell currently reads the up-state. -/
def Upstream.heathy_endpoints (u : Upstream) : List Endpoint :=
  (u.endpoints.filter
      (fun p => p.1.weight ≠ 0 ∧ p.2 = Healthiness.Up)).map Prod.fst

/-- HTTP response, keeping the parts the gateway constructs itself: the status
code and the body text (`hyper::Response<Body>` in the source). -/
structure HyperResponse where
  status : Nat
  body : String
deriving DecidableEq, Repr

/-- `not_found` (src/http.rs lines 81-86): `404 Not Found`. -/
def not_found : HyperResponse :=
  { status := 404, body := "Not Found" }

/-- `upstream_unavailable` (src/http.rs lines 88-93): the source builds this
response with `StatusCode::BAD_GATEWAY`, i.e. status 502, and the body
text `Upstream Unavailable`. -/
def upstream_unavailable : HyperResponse :=
  { status := 502, body := "Upstream Unavailable" }

/-- `bad_gateway` (src/http.rs lines 95-100): `502 Bad Gateway`. -/
def bad_gateway : HyperResponse :=
  { status := 502, body := "Bad Gateway" }

/-- Loop body of `WeightedRandom::select_endpoint` (src/load_balance.rs lines
59-65) and of the identical `WeightedRandom::select_upstream`
(src/upstream.rs lines 134-141): walk the list accumulating `curr += weight`
and return the first address with `random < curr`.  Falling off the end is
`unreachable!()` in the source and is modelled as `none`. -/
def weightedLoop : List Endpoint → Nat → Nat → Option String
  | [], _, _ => none
  | ep :: rest, random, curr =>
      if random < curr + ep.weight then some ep.addr
      else weightedLoop rest random (curr + ep.weight)

/-- Total weight `W = Σ weight` as folded in `WeightedRandom::select_endpoint`
(src/load_balance.rs lines 52-55). -/
def totalWeight (eps : List Endpoint) : Nat :=
  eps.foldl (fun sum a => sum + a.weight) 0

/-- `WeightedRandom::select_endpoint` (src/load_balance.rs lines 50-68) with
the RNG factored out: `random` stands for the value drawn by
`thread_rng().gen_range(0..total_weight)`, which the RNG guarantees to be
`< totalWeight eps` (and which panics when the total is zero). -/
def WeightedRandom.select_endpoint (eps : List Endpoint) (random : Nat) : Option String :=
  weightedLoop eps random 0

/-- `Random::select_endpoint` (src/load_balance.rs lines 33-39) with the RNG
factored out: `draw` stands for `thread_rng().gen_range(0..len)`. -/
def Random.select_endpoint (eps : List Endpoint) (draw : Nat) : Option String :=
  (eps.get? draw).map Endpoint.addr

/-- `LeastRequest::select_endpoint` (src/load_balance.rs lines 85-126 and the
identical copy in src/upstream.rs).  The `HashMap` of in-flight counts is an
association list iterated in insertion order; `draw` stands for the RNG
tie-break `thread_rng().gen_range(0..len)`; the `unwrap` on the address map
(which would panic on a stale connection entry) is modelled as skipping the
entry. -/
def LeastRequest.select_endpoint (connections : List (String × Nat))
    (eps : List Endpoint) (draw : Nat) : Option String :=
  let indices : List Nat :=
    if connections.length = 0 ∨ connections.length < eps.length then
      ((List.range eps.length).zip eps).filterMap
        (fun p => if (connections.lookup p.2.addr).isNone then some p.1 else none)
    else
      let addrIndex := ((List.range eps.length).zip eps).map (fun p => (p.2.addr, p.1))
      let sorted := connections.mergeSort (fun a b => a.2 ≤ b.2)
      match sorted with
      | [] => []
      | least :: _ =>
          (sorted.takeWhile (fun p => p.2 = least.2)).filterMap
            (fun p => addrIndex.lookup p.1)
  match indices with
  | [i] => (eps.get? i).map Endpoint.addr
  | _ =>
      match indices.get? (draw % indices.length) with
      | some i => (eps.get? i).map Endpoint.addr
      | none => none

/-- Strategy dispatch performed through the `LoadBalanceStrategy` trait object
held by the upstream's client (src/upstream.rs lines 89-97). -/
def Strategy.select_endpoint : Strategy → List Endpoint → Nat → Option String
  | Strategy.Random, eps, draw => Random.select_endpoint eps draw
  | Strategy.WeightedRandom, eps, draw => WeightedRandom.select_endpoint eps draw
  | Strategy.LeastRequest conns, eps, draw => LeastRequest.select_endpoint conns eps draw

/-- `Upstream::select_upstream` (src/upstream.rs lines 67-81): filter to the
healthy endpoints, return `None` when that set is empty, otherwise delegate
to the strategy (whose internal panic cases are also modelled as `none`). -/
def Upstream.select_upstream (u : Upstream) (draw : Nat) : Option String :=
  let available := u.heathy_endpoints
  if available.isEmpty then none
  else u.strategy.select_endpoint available draw

/-- `Route::forward_request` (src/router.rs lines 59-107) reduced to its
decision structure: read the healthy endpoint set, answer
`upstream_unavailable` when it is empty, otherwise select an endpoint and
call the client (`fwd`), mapping a transport error to `bad_gateway`.  The
overall `none` models the panic of the unreachable strategy branch; URI
rebuilding and proxy headers do not affect which response is chosen. -/
def Route.forward_request (u : Upstream) (draw : Nat)
    (fwd : String → Except Unit HyperResponse) : Option HyperResponse :=
  let working := u.heathy_endpoints
  if working.isEmpty then some upstream_unavailable
  else
    match u.strategy.select_endpoint working draw with
    | none => none
    | some endpoint =>
        match fwd endpoint with
        | Except.ok resp => some resp
        | Except.error _ => some bad_gateway

/-- Route configuration from `src/config.rs` (`struct RouteConfig`); the
plugin map is keyed by plugin name and its JSON payload is opaque here. -/
structure RouteConfig where
  id : String
  name : String
  desc : String
  uris : List String
  upstream_id : String
  overwrite_host : Bool
  matcher : String
  priority : Nat
deriving DecidableEq, Repr

/-- Serializable registry document from `src/config.rs` (`struct Registry`,
also `RegistryConfig` in src/registry.rs): the route and upstream specs. -/
structure RegistryConfig where
  routes : List RouteConfig
  upstreams : List UpstreamConfig
deriving DecidableEq, Repr

/-- The upstream-reference validation loop of `Registry::build_router`
(src/config.rs lines 167-173, identically src/registry.rs lines 184-190):
build the `HashSet` of the config's upstream `id`s and fail with
`upstream_not_found` on the first route whose `upstream_id` is not in it. -/
def Registry.check_route_upstreams (cfg : RegistryConfig) : Except String Unit :=
  cfg.routes.foldlM
    (fun _ r =>
      if cfg.upstreams.any (fun up => up.id = r.upstream_id) then Except.ok ()
      else Except.error ("upstream<" ++ r.upstream_id ++ "> not found"))
    ()

/-- `HashMap::insert` on the upstream map: replace the value when the key is
present, otherwise add the binding. -/
def insertAssoc (m : List (String × Upstream)) (k : String) (v : Upstream) :
    List (String × Upstream) :=
  if m.any (fun p => p.1 = k) then m.map (fun p => if p.1 = k then (k, v) else p)
  else m ++ [(k, v)]

/-- `Registry::build_upstream_map` (src/config.rs lines 187-196, identically
src/registry.rs lines 204-213): build each upstream and insert it into the
map under `u.name` — the upstream's *name*, not its `id`. -/
def Registry.build_upstream_map (cfg : RegistryConfig) :
    Except String (List (String × Upstream)) :=
  cfg.upstreams.foldlM
    (fun m u => do
      let up ← Upstream.new u
      pure (insertAssoc m u.name up))
    []

/-- `RouteApi::add` (src/adminapi/route.rs lines 36-60): reject only a
duplicate route id; otherwise push the route onto the in-memory config and
return the route id (the `config_notify.notify_one()` that asynchronously
triggers a registry rebuild carries no data and is dropped here).  No check
of `route.upstream_id` is performed. -/
def RouteApi.add (config : RegistryConfig) (route : RouteConfig) :
    Except String (String × RegistryConfig) :=
  if config.routes.any (fun r => r.id = route.id) then
    Except.error "Route Id exist"
  else
    Except.ok (route.id, { config with routes := config.routes ++ [route] })

/-- Admin HTTP request as seen by the auth middleware and the session API:
the request path, the `sid` cookie if present, and the JSON login body. -/
structure AdminRequest where
  path : String
  cookie_sid : Option String
  username : String
  password : String
deriving DecidableEq, Repr

/-- Admin response: status plus the `Set-Cookie` pair when one is appended. -/
structure LieResponse where
  status : Nat
  set_cookie : Option (String × String)
deriving DecidableEq, Repr

/-- `SessionApi::login` (src/adminapi/session.rs lines 87-115): compare the
body against the hard-coded `ALLOWED_ADMIN` pair `("admin", "admin")`; on
success store the freshly generated session id (`sid`, the RNG output passed
in here) and answer 200 with a `Set-Cookie: sid=...`; otherwise 401.  The
result pairs the response with the updated global session store. -/
def SessionApi.login (store : List (String × String)) (sid : String)
    (req : AdminRequest) : LieResponse × List (String × String) :=
  if req.username = "admin" ∧ req.password = "admin" then
    ({ status := 200, set_cookie := some ("sid", sid) }, store ++ [(sid, req.username)])
  else
    ({ status := 401, set_cookie := none }, store)

/-- `AuthMiddleware::handle` (src/adminapi/session.rs lines 62-82): a request
whose path is exactly `login_path` is passed through; any other request is
passed through only when it carries a `sid` cookie present in the session
store, and is answered 401 otherwise. -/
def AuthMiddleware.handle (login_path : String) (store : List (String × String))
    (req : AdminRequest) (next : AdminRequest → LieResponse) : LieResponse :=
  if req.path ≠ login_path then
    match req.cookie_sid with
    | some cookie =>
        if (store.lookup cookie).isSome then next req
        else { status := 401, set_cookie := none }
    | none => { status := 401, set_cookie := none }
  else next req

/-- The login path the middleware is constructed with in `AdminApi::run`
(src/adminapi/mod.rs line 138: `AuthMiddleware::new("/login")`). -/
def adminLoginPath : String := "/login"

/-- The route at which the login handler is registered in `AdminApi::run`
(src/adminapi/mod.rs line 140: `app.post("/api/session/login", ...)`). -/
def loginRoutePath : String := "/api/session/login"

/-- The admin service for the login endpoint as wired in `AdminApi::run`:
the auth middleware in front of the router, which invokes
`SessionApi::login` for `POST /api/session/login`; other paths are summed up
as an opaque 200 from their handler. -/
def AdminApi.serve (store : List (String × String)) (sid : String)
    (req : AdminRequest) : LieResponse :=
  AuthMiddleware.handle adminLoginPath store req
    (fun r =>
      if r.path = loginRoutePath then (SessionApi.login store sid r).1
      else { status := 200, set_cookie := none })

/-- Gateway request, opaque to the dispatcher except for being threaded
through the plugin chain (`hyper::Request<Body>`). -/
structure HyperRequest where
  path : String
deriving DecidableEq, Repr

/-- Per-request context from `src/context.rs` (`struct GatewayInfo`): the
plugin-writable upstream override.  `request_info` and the extension bag are
not read by the dispatcher's control flow and are omitted. -/
structure GatewayInfo where
  upstream_id : Option String
deriving DecidableEq, Repr

/-- A plugin as used by `GatewayService::dispatch`: the two hooks of the
`Plugin` trait (src/plugins/mod.rs lines 19-43), with the `&mut ctx`
mutation made explicit in the return value.  `on_access` answers either the
(possibly rewritten) request or a short-circuit response. -/
structure Plugin where
  on_access : GatewayInfo → HyperRequest → GatewayInfo × (HyperRequest ⊕ HyperResponse)
  after_forward : GatewayInfo → HyperResponse → GatewayInfo × HyperResponse

/-- The route value consumed by `GatewayService::dispatch`
(src/services.rs): its default `upstream_id` and its plugin list, already
sorted by priority descending at build time. -/
structure GatewayRoute where
  upstream_id : String
  plugins : List Plugin

/-- Observable steps of one dispatch, used to state ordering properties:
which plugin hook ran (by position in the route's plugin list) and whether
the upstream client was called. -/
inductive Event where
  | OnAccess : Nat → Event
  | Forward : Event
  | AfterForward : Nat → Event
deriving DecidableEq, Repr

/-- The `on_access` loop of `GatewayService::dispatch` (src/services.rs lines
83-92): run each plugin in list order, stopping at the first short-circuit
response.  Returns the emitted events (`i` numbers the plugins from the
given starting index), the mutated context, and either the final request or
the short-circuit response. -/
def runAccess : List Plugin → GatewayInfo → HyperRequest → Nat →
    List Event × GatewayInfo × (HyperRequest ⊕ HyperResponse)
  | [], ctx, req, _ => ([], ctx, Sum.inl req)
  | p :: ps, ctx, req, i =>
      match p.on_access ctx req with
      | (ctx1, Sum.inl r) =>
          let (tr, ctx2, out) := runAccess ps ctx1 r (i + 1)
          (Event.OnAccess i :: tr, ctx2, out)
      | (ctx1, Sum.inr resp) => ([Event.OnAccess i], ctx1, Sum.inr resp)

/-- The `after_forward` loop of `GatewayService::dispatch` (src/services.rs
lines 117-119): fold every plugin over the response, in the same list order
as `on_access`. -/
def runAfter : List Plugin → GatewayInfo → HyperResponse → Nat →
    List Event × HyperResponse
  | [], _, resp, _ => ([], resp)
  | p :: ps, ctx, resp, i =>
      match p.after_forward ctx resp with
      | (ctx1, resp1) =>
          let (tr, out) := runAfter ps ctx1 resp1 (i + 1)
          (Event.AfterForward i :: tr, out)

/-- `GatewayService::dispatch` (src/services.rs lines 61-122).  `upstreams`
is the snapshot's upstream map; `fwd` stands for `Service::call` on the
upstream's client (its transport outcome).  Control flow follows the source:
run `on_access` (short-circuit responses are returned as-is); resolve
`ctx.upstream_id.unwrap_or(route.upstream_id)` in the map, answering
`upstream_unavailable` when absent; when present, read `healthy_endpoints`
(the source binds and never uses it), forward, map a transport error to
`bad_gateway`, and run `after_forward` over the same plugin list. -/
def GatewayService.dispatch (route : GatewayRoute)
    (upstreams : List (String × Upstream))
    (fwd : HyperRequest → Except Unit HyperResponse) (req : HyperRequest) :
    HyperResponse × List Event :=
  let ctx : GatewayInfo := { upstream_id := none }
  match runAccess route.plugins ctx req 0 with
  | (tr, _, Sum.inr resp) => (resp, tr)
  | (tr, ctx1, Sum.inl req1) =>
      let upstream_id := ctx1.upstream_id.getD route.upstream_id
      match upstreams.lookup upstream_id with
      | none => (upstream_unavailable, tr)
      | some u =>
          let _healthy := u.heathy_endpoints
          let resp :=
            match fwd req1 with
            | Except.ok r => r
            | Except.error _ => bad_gateway
          let (tr2, out) := runAfter route.plugins ctx1 resp 0
          (out, tr ++ [Event.Forward] ++ tr2)

/-- The ordering-relevant fields of the `Route` values pushed into the path
router by `Registry::build_router` (src/registry.rs lines 192-198). -/
structure BuiltRoute where
  id : String
  priority : Nat
deriving DecidableEq, Repr

/-- A per-URI-pattern route list sorted by `priority` descending, the order
produced by `sort_unstable_by_key(|r| Reverse(r.priority))`. -/
def SortedByPriorityDesc (l : List BuiltRoute) : Prop :=
  l.Pairwise (fun a b => b.priority ≤ a.priority)

/-- The contract of `Vec::sort_unstable_by_key(|r| Reverse(r.priority))`
(used at src/config.rs line 180 and src/registry.rs lines 149, 162, 197):
the output is some permutation of the input that is sorted by priority
descending.  The sort is documented as unstable, so nothing beyond this is
guaranteed about the relative order of equal keys. -/
def SortUnstableByPriority (input output : List BuiltRoute) : Prop :=
  output.Perm input ∧ SortedByPriorityDesc output

/-- The per-pattern list building of `Registry::build_router`
(src/registry.rs lines 194-198): for each route of the config, in config
order, `push` it onto the pattern's list and re-sort with
`sort_unstable_by_key`.  `RouteListBuild rs out` relates the insertion
sequence `rs` for one URI pattern to a possible final list `out`. -/
inductive RouteListBuild : List BuiltRoute → List BuiltRoute → Prop
  | nil : RouteListBuild [] []
  | step {rs acc r out} : RouteListBuild rs acc →
      SortUnstableByPriority (acc ++ [r]) out → RouteListBuild (rs ++ [r]) out

/-- A sample health configuration: two consecutive Up probes to rise, three
consecutive Down probes to fall, starting Up. -/
def hcSample : HealthConfig :=
  { timeout := 1000, interval := 10, path := "/health", status_regex := "",
    rise := 2, fall := 3, default_down := false }

/-- Upstream spec whose `id` and `name` differ. -/
def upCfgU1 : UpstreamConfig :=
  { id := "u1", name := "n1", desc := "",
    endpoints := [{ addr := "127.0.0.1:5000", weight := 1 }],
    strategy := "random", is_https := false, health_check := hcSample }

/-- Route spec referencing the upstream above by its `id`. -/
def routeCfgR1 : RouteConfig :=
  { id := "r1", name := "r1", desc := "", uris := ["/hello"],
    upstream_id := "u1", overwrite_host := false, matcher := "", priority := 0 }

/-- Registry document combining the two. -/
def regCfg1 : RegistryConfig := { routes := [routeCfgR1], upstreams := [upCfgU1] }

/-- C1: the claim says the snapshot's upstreams map is keyed by upstream id,
so that after validation every route's `upstream_id` is a key of the map.
On `regCfg1` the `build_router` validation succeeds (the route's
`upstream_id` `u1` is among the config's upstream ids), yet
`build_upstream_map` inserts the upstream under its *name* `n1`
(src/config.rs line 192 / src/registry.rs line 209 use `u.name`), so the
dispatcher's lookup of `u1` fails while `n1` is the actual key.  Everything
else in the code (the validation, `Registry::add_upstream`, the dispatch
lookup) uses ids, so the insertion by name is a slip. -/
theorem build_upstream_map_keyed_by_name_bug :
    Registry.check_route_upstreams regCfg1 = Except.ok () ∧
    Except.map (fun m => m.lookup routeCfgR1.upstream_id)
        (Registry.build_upstream_map regCfg1) = Except.ok none ∧
    Except.map (fun m => m.map Prod.fst) (Registry.build_upstream_map regCfg1) =
      Except.ok ["n1"] := by
  refine ⟨rfl, rfl, rfl⟩

/-- C4: the claim says the aggregated health state moves to Down exactly when
the last `fall` outcomes are all Down and otherwise keeps its previous
value.  With `rise = 2`, `fall = 3` and a ring that starts Up and empty, a
single Down probe already flips the state to Down (and from a Down start a
single Up probe flips it to Up): `check_status` (src/health.rs lines
169-175) re-reads `ring.iter().rev().next()` — the newest entry — on every
loop iteration instead of walking backwards, so one matching outcome passes
any threshold. -/
theorem status_ring_single_probe_flips :
    ((StatusRing.new hcSample).append Healthiness.Down).status = Healthiness.Down ∧
    (StatusRing.new hcSample).status = Healthiness.Up ∧
    ((StatusRing.new { hcSample with default_down := true }).append
        Healthiness.Up).status = Healthiness.Up ∧
    (StatusRing.new { hcSample with default_down := true }).status =
      Healthiness.Down := by
  refine ⟨rfl, rfl, rfl, rfl⟩

/-- Route spec whose `upstream_id` matches no upstream at all. -/
def routeCfgMissing : RouteConfig :=
  { id := "r1", name := "r1", desc := "", uris := ["/hello"],
    upstream_id := "missing", overwrite_host := false, matcher := "", priority := 0 }

/-- C5: the claim says an admin `POST /api/routes` naming an unknown
`upstream_id` fails with 400 "upstream not found" and leaves the in-memory
config unchanged.  `RouteApi::add` (src/adminapi/route.rs lines 36-60) only
checks for a duplicate route id: on an empty config it accepts the route,
appends it to the in-memory config and returns its id; the unknown upstream
is only discovered later when the notified rebuild runs `build_router`,
which fails and leaves the previously published snapshots in place. -/
theorem route_add_skips_upstream_check :
    RouteApi.add { routes := [], upstreams := [] } routeCfgMissing =
      Except.ok ("r1", { routes := [routeCfgMissing], upstreams := [] }) ∧
    ({ routes := [routeCfgMissing], upstreams := [] } : RegistryConfig) ≠
      { routes := [], upstreams := [] } ∧
    Registry.check_route_upstreams { routes := [routeCfgMissing], upstreams := [] } =
      Except.error "upstream<missing> not found" := by
  refine ⟨rfl, by decide, rfl⟩

/-- A login request carrying the correct hard-coded admin credentials and no
session cookie, addressed to the registered login route. -/
def loginReqGood : AdminRequest :=
  { path := "/api/session/login", cookie_sid := none,
    username := "admin", password := "admin" }

/-- C6: the claim says `POST /api/session/login` with the correct credentials
returns 200 with a `Set-Cookie: sid=...` and is reachable without an
existing session.  The handler itself behaves exactly so (200 + cookie on
the admin/admin pair, 401 otherwise), but `AdminApi::run` constructs the
auth middleware with `AuthMiddleware::new("/login")` while registering the
handler at `/api/session/login`; the exact-path exemption therefore never
matches the login route, and a cookie-less login request is answered 401 by
the middleware before the handler can run. -/
theorem admin_login_unreachable_without_session :
    AdminApi.serve [] "s1" loginReqGood = { status := 401, set_cookie := none } ∧
    (SessionApi.login [] "s1" loginReqGood).1 =
      { status := 200, set_cookie := some ("sid", "s1") } ∧
    (SessionApi.login [] "s1" { loginReqGood with password := "nope" }).1 =
      { status := 401, set_cookie := none } ∧
    adminLoginPath ≠ loginRoutePath := by
  refine ⟨rfl, rfl, rfl, by decide⟩

/-- Every event recorded by the `on_access` loop is an `OnAccess` event. -/
theorem runAccess_events_onAccess (ps : List Plugin) :
    ∀ ctx req i, ∀ e ∈ (runAccess ps ctx req i).1, ∃ j, e = Event.OnAccess j := by
  induction ps with
  | nil => intro ctx req i e he; simp [runAccess] at he
  | cons p ps ih =>
      intro ctx req i e he
      simp only [runAccess] at he
      rcases hp : p.on_access ctx req with ⟨ctx1, out⟩
      rcases out with r | resp
      · rw [hp] at he
        simp only [List.mem_cons] at he
        rcases he with rfl | he
        · exact ⟨i, rfl⟩
        · have := ih ctx1 r (i + 1) e
          rcases hr : runAccess ps ctx1 r (i + 1) with ⟨tr, rest⟩
          rw [hr] at he this
          exact this he
      · rw [hp] at he
        simp only [List.mem_singleton] at he
        exact ⟨i, he⟩

/-- A route with no plugins and default upstream `u1`. -/
def routePlain : GatewayRoute := { upstream_id := "u1", plugins := [] }

/-- A transport function that always succeeds with a 200 response. -/
def fwdOk200 : HyperRequest → Except Unit HyperResponse :=
  fun _ => Except.ok { status := 200, body := "from upstream" }

/-- A sample request. -/
def reqHello : HyperRequest := { path := "/hello" }

/-- An upstream present in the snapshot whose only endpoint is drained
(weight 0), so the weight/health filter leaves nothing. -/
def upDrained : Upstream :=
  { name := "u1", scheme := Scheme.Http, strategy := Strategy.Random,
    endpoints := [({ addr := "127.0.0.1:5000", weight := 0 }, Healthiness.Up)],
    health_config := hcSample }

/-- C2 counterexample: the claim says a missing upstream, or an upstream left
with no endpoints after the weight/health filter, is answered with status
503.  Dispatching against an empty snapshot returns `upstream_unavailable`,
whose status is 502, not 503; and dispatching to a present upstream whose
filtered endpoint set is empty does not answer 503 either — the filter
result is unused and the request is forwarded (the 200 from the transport
comes back, and the event trace shows the upstream call). -/
theorem dispatch_missing_upstream_status_counterexample :
    (GatewayService.dispatch routePlain [] fwdOk200 reqHello).1 = upstream_unavailable ∧
    (GatewayService.dispatch routePlain [] fwdOk200 reqHello).1.status ≠ 503 ∧
    upDrained.heathy_endpoints = [] ∧
    (GatewayService.dispatch routePlain [("u1", upDrained)] fwdOk200 reqHello).1.status = 200 ∧
    (GatewayService.dispatch routePlain [("u1", upDrained)] fwdOk200 reqHello).2 =
      [Event.Forward] := by
  refine ⟨rfl, by decide, rfl, rfl, rfl⟩

/-- C2 amended: when the plugin chain passes the request through and the
effective upstream id resolves to nothing in the snapshot, the dispatcher
answers the `upstream_unavailable` response — status 502, the same code as
transport failures — without calling the upstream; and when the upstream is
present the request is always forwarded, whatever its filtered endpoint set,
so emptiness after the filter never produces an error response. -/
theorem dispatch_missing_upstream_502 :
    (∀ (route : GatewayRoute) (ups : List (String × Upstream))
        (fwd : HyperRequest → Except Unit HyperResponse) (req : HyperRequest)
        (tr : List Event) (ctx1 : GatewayInfo) (req1 : HyperRequest),
      runAccess route.plugins { upstream_id := none } req 0 = (tr, ctx1, Sum.inl req1) →
      ups.lookup (ctx1.upstream_id.getD route.upstream_id) = none →
      GatewayService.dispatch route ups fwd req = (upstream_unavailable, tr) ∧
      upstream_unavailable.status = 502 ∧ Event.Forward ∉ tr) ∧
    (∀ (route : GatewayRoute) (ups : List (String × Upstream))
        (fwd : HyperRequest → Except Unit HyperResponse) (req : HyperRequest)
        (tr : List Event) (ctx1 : GatewayInfo) (req1 : HyperRequest) (u : Upstream),
      runAccess route.plugins { upstream_id := none } req 0 = (tr, ctx1, Sum.inl req1) →
      ups.lookup (ctx1.upstream_id.getD route.upstream_id) = some u →
      Event.Forward ∈ (GatewayService.dispatch route ups fwd req).2) := by
  constructor
  · intro route ups fwd req tr ctx1 req1 ha hl
    refine ⟨?_, rfl, ?_⟩
    · simp only [GatewayService.dispatch, ha, hl]
    · intro hmem
      rcases runAccess_events_onAccess route.plugins { upstream_id := none } req 0
          Event.Forward (by rw [ha]; exact hmem) with ⟨j, hj⟩
      exact Event.noConfusion hj
  · intro route ups fwd req tr ctx1 req1 u ha hl
    simp only [GatewayService.dispatch, ha, hl]
    rcases hr : runAfter route.plugins ctx1
        (match fwd req1 with
          | Except.ok r => r
          | Except.error _ => bad_gateway) 0 with ⟨tr2, out⟩
    simp [List.mem_append]

/-- C2 amended, witness: with no plugins and an empty snapshot the dispatcher
answers `upstream_unavailable` with an upstream-free trace. -/
theorem dispatch_missing_upstream_502_witness :
    GatewayService.dispatch routePlain [] fwdOk200 reqHello = (upstream_unavailable, []) ∧
    upstream_unavailable.status = 502 ∧ Event.Forward ∉ ([] : List Event) :=
  dispatch_missing_upstream_502.1 routePlain [] fwdOk200 reqHello []
    { upstream_id := none } reqHello rfl rfl

/-- A per-endpoint transport function that always succeeds with a 200. -/
def fwdEpOk200 : String → Except Unit HyperResponse :=
  fun _ => Except.ok { status := 200, body := "from upstream" }

/-- An upstream whose only endpoint has positive weight but is marked Down. -/
def upAllDown : Upstream :=
  { name := "u1", scheme := Scheme.Http, strategy := Strategy.Random,
    endpoints := [({ addr := "127.0.0.1:5000", weight := 1 }, Healthiness.Down)],
    health_config := hcSample }

/-- C3 counterexample: the claim says that when the healthy set is empty but
the weight > 0 set is not, selection falls back to the weight > 0 set and
the request is still forwarded.  On `upAllDown` — one endpoint of weight 1,
marked Down — `select_upstream` returns `none` (src/upstream.rs lines 68-71
return early on an empty healthy set, and no `all_endpoints` fallback exists
anywhere), and `Route::forward_request` answers `upstream_unavailable`
without consulting the transport, which here would have returned a 200. -/
theorem select_upstream_no_fallback_counterexample :
    upAllDown.endpoints.map Prod.fst = [{ addr := "127.0.0.1:5000", weight := 1 }] ∧
    upAllDown.heathy_endpoints = [] ∧
    Upstream.select_upstream upAllDown 0 = none ∧
    Route.forward_request upAllDown 0 fwdEpOk200 = some upstream_unavailable ∧
    upstream_unavailable.status ≠ 200 := by
  refine ⟨rfl, rfl, rfl, rfl, by decide⟩

/-- C3 amended: an upstream whose healthy endpoint set is empty never selects
an endpoint — `select_upstream` returns `None` and `forward_request`
answers `upstream_unavailable` (status 502) — regardless of how many
weight > 0 endpoints exist; there is no fallback set. -/
theorem select_upstream_empty_healthy_fails (u : Upstream) (draw : Nat)
    (fwd : String → Except Unit HyperResponse)
    (h : u.heathy_endpoints = []) :
    Upstream.select_upstream u draw = none ∧
    Route.forward_request u draw fwd = some upstream_unavailable := by
  constructor
  · simp only [Upstream.select_upstream, h]
    rfl
  · simp only [Route.forward_request, h]
    rfl

/-- C3 amended, witness: concrete evaluation on `upAllDown`. -/
theorem select_upstream_empty_healthy_fails_witness :
    Upstream.select_upstream upAllDown 3 = none ∧
    Route.forward_request upAllDown 3 fwdEpOk200 = some upstream_unavailable :=
  select_upstream_empty_healthy_fails upAllDown 3 fwdEpOk200 rfl

/-- When the `on_access` loop passes the request all the way through, its
event trace is exactly one `OnAccess` per plugin, in list order. -/
theorem runAccess_complete_trace (ps : List Plugin) :
    ∀ ctx req i tr ctx1 req1,
      runAccess ps ctx req i = (tr, ctx1, Sum.inl req1) →
      tr = (List.range' i ps.length).map Event.OnAccess := by
  induction ps with
  | nil =>
      intro ctx req i tr ctx1 req1 h
      simp only [runAccess, Prod.mk.injEq] at h
      simp [← h.1]
  | cons p ps ih =>
      intro ctx req i tr ctx1 req1 h
      simp only [runAccess] at h
      rcases hp : p.on_access ctx req with ⟨ctxa, out⟩
      rw [hp] at h
      rcases out with r | resp
      · dsimp only at h
        rcases hr : runAccess ps ctxa r (i + 1) with ⟨tr2, ctx2, out2⟩
        rw [hr] at h
        dsimp only at h
        simp only [Prod.mk.injEq] at h
        rcases h with ⟨htr, _, hout⟩
        rw [hout] at hr
        have := ih ctxa r (i + 1) tr2 ctx2 req1 hr
        rw [← htr, this, List.length_cons, List.range'_succ]
        rfl
      · dsimp only at h
        simp only [Prod.mk.injEq] at h
        exact absurd h.2.2 (by simp)

/-- The `after_forward` loop always emits one `AfterForward` per plugin, in
list order. -/
theorem runAfter_trace (ps : List Plugin) :
    ∀ ctx resp i,
      (runAfter ps ctx resp i).1 = (List.range' i ps.length).map Event.AfterForward := by
  induction ps with
  | nil => intro ctx resp i; simp [runAfter]
  | cons p ps ih =>
      intro ctx resp i
      simp only [runAfter]
      rw [ih, List.length_cons, List.range'_succ]
      rfl

/-- C7: (a) if some plugin's `on_access` short-circuits, the dispatcher
returns that response as-is, having called no upstream and no
`after_forward` hook; (b) otherwise, once the upstream resolves, the
observable order is all `on_access` hooks in plugin-list order, then the
single upstream call, then all `after_forward` hooks over the same plugin
list in the same (forward) order — not in reverse. -/
theorem dispatch_plugin_pipeline_order :
    (∀ (route : GatewayRoute) (ups : List (String × Upstream))
        (fwd : HyperRequest → Except Unit HyperResponse) (req : HyperRequest)
        (tr : List Event) (ctx1 : GatewayInfo) (resp : HyperResponse),
      runAccess route.plugins { upstream_id := none } req 0 = (tr, ctx1, Sum.inr resp) →
      GatewayService.dispatch route ups fwd req = (resp, tr) ∧
      Event.Forward ∉ tr ∧ ∀ j, Event.AfterForward j ∉ tr) ∧
    (∀ (route : GatewayRoute) (ups : List (String × Upstream))
        (fwd : HyperRequest → Except Unit HyperResponse) (req : HyperRequest)
        (tr : List Event) (ctx1 : GatewayInfo) (req1 : HyperRequest) (u : Upstream),
      runAccess route.plugins { upstream_id := none } req 0 = (tr, ctx1, Sum.inl req1) →
      ups.lookup (ctx1.upstream_id.getD route.upstream_id) = some u →
      (GatewayService.dispatch route ups fwd req).2 =
        ((List.range route.plugins.length).map Event.OnAccess) ++ [Event.Forward] ++
        ((List.range route.plugins.length).map Event.AfterForward)) := by
  constructor
  · intro route ups fwd req tr ctx1 resp ha
    refine ⟨by simp only [GatewayService.dispatch, ha], ?_, ?_⟩
    · intro hmem
      rcases runAccess_events_onAccess route.plugins { upstream_id := none } req 0
          Event.Forward (by rw [ha]; exact hmem) with ⟨j, hj⟩
      exact Event.noConfusion hj
    · intro j hmem
      rcases runAccess_events_onAccess route.plugins { upstream_id := none } req 0
          (Event.AfterForward j) (by rw [ha]; exact hmem) with ⟨k, hk⟩
      exact Event.noConfusion hk
  · intro route ups fwd req tr ctx1 req1 u ha hl
    have h1 := runAccess_complete_trace route.plugins { upstream_id := none } req 0
        tr ctx1 req1 ha
    simp only [GatewayService.dispatch, ha, hl]
    cases hf : fwd req1 with
    | ok r =>
        rcases hr : runAfter route.plugins ctx1 r 0 with ⟨tr2, out⟩
        have h2 := runAfter_trace route.plugins ctx1 r 0
        rw [hr] at h2
        dsimp only at h2
        simp only [hf, hr, h1, h2, List.range_eq_range']
    | error e =>
        rcases hr : runAfter route.plugins ctx1 bad_gateway 0 with ⟨tr2, out⟩
        have h2 := runAfter_trace route.plugins ctx1 bad_gateway 0
        rw [hr] at h2
        dsimp only at h2
        simp only [hf, hr, h1, h2, List.range_eq_range']

/-- A plugin whose hooks pass request and response through unchanged. -/
def passPlugin : Plugin :=
  { on_access := fun ctx req => (ctx, Sum.inl req)
    after_forward := fun ctx resp => (ctx, resp) }

/-- A route carrying two pass-through plugins. -/
def routeTwoPlugins : GatewayRoute :=
  { upstream_id := "u1", plugins := [passPlugin, passPlugin] }

/-- C7 witness: with two pass-through plugins and a resolvable upstream the
trace is OnAccess 0, OnAccess 1, Forward, AfterForward 0, AfterForward 1. -/
theorem dispatch_plugin_pipeline_order_witness :
    (GatewayService.dispatch routeTwoPlugins [("u1", upDrained)] fwdOk200 reqHello).2 =
      [Event.OnAccess 0, Event.OnAccess 1, Event.Forward,
       Event.AfterForward 0, Event.AfterForward 1] := by
  have h := dispatch_plugin_pipeline_order.2 routeTwoPlugins [("u1", upDrained)]
      fwdOk200 reqHello [Event.OnAccess 0, Event.OnAccess 1]
      { upstream_id := none } reqHello upDrained rfl rfl
  rw [h]
  rfl

/-- Weight sum of an endpoint list, in closed form. -/
def weightSum (l : List Endpoint) : Nat := (l.map Endpoint.weight).sum

/-- The fold in `totalWeight` with an arbitrary accumulator. -/
theorem foldl_weight_eq (l : List Endpoint) :
    ∀ n : Nat, l.foldl (fun sum a => sum + a.weight) n = n + weightSum l := by
  induction l with
  | nil => intro n; simp [weightSum]
  | cons e l ih =>
      intro n
      simp only [List.foldl_cons, ih, weightSum, List.map_cons, List.sum_cons]
      omega

/-- `totalWeight` agrees with the closed-form weight sum. -/
theorem totalWeight_eq_weightSum (l : List Endpoint) : totalWeight l = weightSum l := by
  simpa using foldl_weight_eq l 0

/-- `weightSum` over `cons`. -/
theorem weightSum_cons (e : Endpoint) (l : List Endpoint) :
    weightSum (e :: l) = e.weight + weightSum l := by
  simp [weightSum]

/-- Specification of the cumulative-weight loop: starting from accumulator
`curr ≤ r` with enough total weight left, the loop answers the first
endpoint whose running sum strictly exceeds `r`, and that endpoint has
non-zero weight. -/
theorem weightedLoop_spec (eps : List Endpoint) :
    ∀ (r curr : Nat), curr ≤ r → r < curr + weightSum eps →
      ∃ i, ∃ hi : i < eps.length,
        weightedLoop eps r curr = some (eps.get ⟨i, hi⟩).addr ∧
        r < curr + weightSum (eps.take (i + 1)) ∧
        (∀ j, j < i → curr + weightSum (eps.take (j + 1)) ≤ r) ∧
        (eps.get ⟨i, hi⟩).weight ≠ 0 := by
  induction eps with
  | nil =>
      intro r curr h1 h2
      exfalso
      simp [weightSum] at h2
      omega
  | cons e l ih =>
      intro r curr h1 h2
      by_cases hc : r < curr + e.weight
      · refine ⟨0, Nat.succ_pos _, ?_, ?_, ?_, ?_⟩
        · simp [weightedLoop, hc]
        · simpa [weightSum] using hc
        · intro j hj; omega
        · show e.weight ≠ 0
          omega
      · have hc1 : curr + e.weight ≤ r := Nat.le_of_not_lt hc
        have h3 : r < curr + e.weight + weightSum l := by
          rw [weightSum_cons] at h2
          omega
        obtain ⟨i, hi, hsel, hub, hlb, hw⟩ := ih r (curr + e.weight) hc1 h3
        refine ⟨i + 1, Nat.succ_lt_succ hi, ?_, ?_, ?_, ?_⟩
        · simpa [weightedLoop, hc] using hsel
        · rw [List.take_succ_cons, weightSum_cons]
          omega
        · intro j hj
          cases j with
          | zero => simpa [weightSum] using hc1
          | succ k =>
              have := hlb k (Nat.lt_of_succ_lt_succ hj)
              rw [List.take_succ_cons, weightSum_cons]
              omega
        · exact hw

/-- C8: for any endpoint list and any draw `r` below the total weight,
`WeightedRandom::select_endpoint` returns the address of the first endpoint
in list order whose cumulative weight sum strictly exceeds `r`; such an
endpoint necessarily has non-zero weight, so weight-0 endpoints are never
selected.  The result is a plain function of the list and the draw, which
is the claimed determinism. -/
theorem weighted_random_first_cumulative_exceeding (eps : List Endpoint) (r : Nat)
    (h : r < totalWeight eps) :
    ∃ i, ∃ hi : i < eps.length,
      WeightedRandom.select_endpoint eps r = some (eps.get ⟨i, hi⟩).addr ∧
      r < totalWeight (eps.take (i + 1)) ∧
      (∀ j, j < i → totalWeight (eps.take (j + 1)) ≤ r) ∧
      (eps.get ⟨i, hi⟩).weight ≠ 0 := by
  rw [totalWeight_eq_weightSum] at h
  obtain ⟨i, hi, hsel, hub, hlb, hw⟩ :=
    weightedLoop_spec eps r 0 (Nat.zero_le r) (by omega)
  refine ⟨i, hi, hsel, ?_, ?_, hw⟩
  · rw [totalWeight_eq_weightSum]
    omega
  · intro j hj
    have := hlb j hj
    rw [totalWeight_eq_weightSum]
    omega

/-- Endpoint list from the source's own weighted-random unit test, with a
drained endpoint inserted. -/
def epsSample : List Endpoint :=
  [{ addr := "aaa", weight := 2 }, { addr := "bbb", weight := 0 },
   { addr := "ccc", weight := 3 }]

/-- C8 witness: draw 2 on `epsSample` skips the exhausted `aaa` (cumulative 2)
and the weight-0 `bbb`, landing on `ccc`. -/
theorem weighted_random_first_cumulative_exceeding_witness :
    2 < totalWeight epsSample ∧
    ∃ i, ∃ hi : i < epsSample.length,
      WeightedRandom.select_endpoint epsSample 2 = some (epsSample.get ⟨i, hi⟩).addr ∧
      2 < totalWeight (epsSample.take (i + 1)) ∧
      (∀ j, j < i → totalWeight (epsSample.take (j + 1)) ≤ 2) ∧
      (epsSample.get ⟨i, hi⟩).weight ≠ 0 :=
  ⟨by decide, weighted_random_first_cumulative_exceeding epsSample 2 (by decide)⟩

/-- C9 amended: every route list produced by the push-then-sort loop of
`Registry::build_router` is sorted by priority descending and contains
exactly the inserted routes.  Nothing more is guaranteed:
`sort_unstable_by_key` promises no stability for equal keys. -/
theorem route_list_sorted_by_priority (rs out : List BuiltRoute)
    (h : RouteListBuild rs out) : SortedByPriorityDesc out ∧ out.Perm rs := by
  induction h with
  | nil => exact ⟨List.Pairwise.nil, List.Perm.refl []⟩
  | step _ hsort ih =>
      exact ⟨hsort.2, hsort.1.trans (ih.2.append_right _)⟩

/-- A route of priority 5, inserted first. -/
def brA : BuiltRoute := { id := "ra", priority := 5 }

/-- A second route of the same priority 5, inserted after `brA`. -/
def brB : BuiltRoute := { id := "rb", priority := 5 }

/-- C9 amended, witness: the singleton build is sorted. -/
theorem route_list_sorted_by_priority_witness :
    SortedByPriorityDesc [brA] ∧ [brA].Perm [brA] :=
  route_list_sorted_by_priority [brA] [brA]
    (RouteListBuild.step RouteListBuild.nil
      ⟨List.Perm.refl _, List.pairwise_singleton _ _⟩)

/-- C9 counterexample: inserting the equal-priority routes `brA` then `brB`
may legitimately end in the list `[brB, brA]` — it is a sorted permutation,
which is all `sort_unstable_by_key` guarantees — and that list does not
present the ties in their insertion order `[brA, brB]`. -/
theorem route_list_tie_order_counterexample :
    RouteListBuild [brA, brB] [brB, brA] ∧
    [brB, brA] ≠ [brA, brB] ∧ brA.priority = brB.priority := by
  refine ⟨?_, by decide, rfl⟩
  have h1 : RouteListBuild [brA] [brA] :=
    RouteListBuild.step RouteListBuild.nil
      ⟨List.Perm.refl _, List.pairwise_singleton _ _⟩
  have h2 : SortUnstableByPriority ([brA] ++ [brB]) [brB, brA] := by
    constructor
    · exact List.Perm.swap brA brB []
    · unfold SortedByPriorityDesc
      refine List.Pairwise.cons ?_ (List.pairwise_singleton _ _)
      intro x hx
      rw [List.mem_singleton] at hx
      subst hx
      exact Nat.le_refl _
  exact RouteListBuild.step h1 h2

/-- Filtering the freshly built endpoint pairs (all cells Up) for weight and
health keeps exactly the weight > 0 endpoints. -/
theorem heathy_of_all_up (l : List Endpoint) :
    ((l.map (fun ep => (ep, Healthiness.Up))).filter
        (fun p => p.1.weight ≠ 0 ∧ p.2 = Healthiness.Up)).map Prod.fst =
      l.filter (fun ep => ep.weight ≠ 0) := by
  induction l with
  | nil => rfl
  | cons e l ih =>
      by_cases hw : e.weight = 0
      · simp [List.filter_cons, hw]
        simpa using ih
      · simp [List.filter_cons, hw]
        simpa using ih

/-- C10: whenever `Upstream::new` succeeds, every endpoint's shared
healthiness cell is initialised to the up-state regardless of
`health_config.default_down`, so `heathy_endpoints()` initially returns all
weight > 0 endpoints; `default_down` only seeds the aggregated state of the
health checker's private `StatusRing`. -/
theorem upstream_new_health_cells_up (cfg : UpstreamConfig) (u : Upstream)
    (h : Upstream.new cfg = Except.ok u) :
    u.endpoints = cfg.endpoints.map (fun ep => (ep, Healthiness.Up)) ∧
    u.heathy_endpoints = cfg.endpoints.filter (fun ep => ep.weight ≠ 0) ∧
    (StatusRing.new cfg.health_check).status =
      (if cfg.health_check.default_down then Healthiness.Down else Healthiness.Up) := by
  have hend : u.endpoints = cfg.endpoints.map (fun ep => (ep, Healthiness.Up)) := by
    simp only [Upstream.new] at h
    split at h
    · simp only [Except.ok.injEq] at h; subst h; rfl
    · simp only [Except.ok.injEq] at h; subst h; rfl
    · simp only [Except.ok.injEq] at h; subst h; rfl
    · exact Except.noConfusion h
  refine ⟨hend, ?_, rfl⟩
  unfold Upstream.heathy_endpoints
  rw [hend]
  exact heathy_of_all_up cfg.endpoints

/-- Upstream spec with `default_down = true`, one live and one drained
endpoint. -/
def upCfgDefaultDown : UpstreamConfig :=
  { id := "u9", name := "u9", desc := "",
    endpoints := [{ addr := "a", weight := 1 }, { addr := "b", weight := 0 }],
    strategy := "random", is_https := false,
    health_check := { hcSample with default_down := true } }

/-- The upstream value `Upstream::new` builds from `upCfgDefaultDown`. -/
def upDefaultDown : Upstream :=
  { name := "u9", scheme := Scheme.Http, strategy := Strategy.Random,
    endpoints := [({ addr := "a", weight := 1 }, Healthiness.Up),
                  ({ addr := "b", weight := 0 }, Healthiness.Up)],
    health_config := { hcSample with default_down := true } }

/-- C10 witness: despite `default_down = true`, the built cells read Up and
the weight-1 endpoint is immediately healthy, while the checker's private
ring starts Down. -/
theorem upstream_new_health_cells_up_witness :
    Upstream.new upCfgDefaultDown = Except.ok upDefaultDown ∧
    upDefaultDown.heathy_endpoints = [{ addr := "a", weight := 1 }] ∧
    (StatusRing.new upCfgDefaultDown.health_check).status = Healthiness.Down := by
  refine ⟨rfl, ?_, ?_⟩
  · have h := (upstream_new_health_cells_up upCfgDefaultDown upDefaultDown rfl).2.1
    rw [h]; rfl
  · have h := (upstream_new_health_cells_up upCfgDefaultDown upDefaultDown rfl).2.2
    rw [h]; rfl
